import Mathlib

/-
Shallow embedding of limiter.py (class Limiter) and verification of the
spec claims about it.

Modelling conventions:
- Python floats are modelled as rationals (the claims do not depend on
  floating-point rounding), timestamps as rationals, Python ints as
  integers, the status codes as the natural-number constants of the source.
- The stored per-client value is the positional 4-tuple
  (rate-or-allowance, last, excesses, status) of the source, modelled by
  the structure Record below.
- The backing database (self._database) is modelled by a lookup function
  `db : String → Option Record` giving the result of get; each method
  additionally returns the list of store operations it performed, so that
  read/write effects can be stated.
- A Python method either returns a status or raises an exception; this is
  the type PyResult.  Two exceptions arise from slips in the source:
  line 275 persists under the key `self.clientIdentifier`, an attribute
  that __init__ never sets (AttributeError), and line 356 persists the
  tuple (rate, now, excesses, status) where the name `rate` is never bound
  inside _A2_incrementRate (NameError).  In both methods these argument
  expressions are evaluated before _set runs, so the exception is raised
  and no write is performed.
-/

namespace Limiter

/-- Limiter status: not blocked (source line 38). -/
def STATUS_NO_BLOCK : ℕ := 0

/-- Limiter status: short block (source line 41). -/
def STATUS_SHORT_BLOCK : ℕ := 1

/-- Limiter status: extended block (source line 45). -/
def STATUS_EXTENDED_BLOCK : ℕ := 2

/-- Algorithm 1 id (source line 59). -/
def A1_ALGORITHM_ID : ℕ := 1

/-- Algorithm 1 maximum rate, requests per second (source line 62). -/
def A1_MAXIMUM_RATE : ℚ := 4

/-- Algorithm 1 maximum excesses before an extended block, -1 for no maximum (source line 65). -/
def A1_MAXIMUM_EXCESSES : ℤ := 30

/-- Algorithm 1 extended block expiration in seconds (source line 68). -/
def A1_EXTENDED_BLOCK_EXPIRATION : ℕ := 21600

/-- Algorithm 1 expiration in seconds (source line 71). -/
def A1_EXPIRATION : ℕ := 3600

/-- Algorithm 2 id (source line 88). -/
def ALGORITHM_ID_A2 : ℕ := 2

/-- Algorithm 2 number of requests (source line 91). -/
def A2_REQUESTS : ℚ := 10

/-- Algorithm 2 period in seconds (source line 94). -/
def A2_PERIOD : ℚ := 5

/-- Algorithm 2 allowance constant, _A2_REQUESTS / _A2_PERIOD (source line 97). -/
def A2_ALLOWANCE : ℚ := A2_REQUESTS / A2_PERIOD

/-- Algorithm 2 maximum excesses before an extended block, -1 for no maximum (source line 100). -/
def A2_MAXIMUM_EXCESSES : ℤ := 30

/-- Algorithm 2 extended block expiration in seconds (source line 103). -/
def A2_EXTENDED_BLOCK_EXPIRATION : ℕ := 60 * 60 * 6

/-- Algorithm 2 expiration in seconds (source line 106). -/
def A2_EXPIRATION : ℕ := 3600

/-- Algorithm 3 id, no rate limit (source line 117). -/
def A3_ALGORITHM_ID : ℕ := 3

/-- The algorithm selected in the source, _ALGORITHM_ID = _A3_ALGORITHM_ID (source line 122). -/
def ALGORITHM_ID : ℕ := A3_ALGORITHM_ID

/-- The positional 4-tuple stored per client.  The first component is the
rate under algorithm 1 and the allowance under algorithm 2; the remaining
components are the last timestamp, the excess count and the status
(source lines 226-233 and 298-305). -/
structure Record where
  field0 : ℚ
  last : ℚ
  excesses : ℤ
  status : ℕ
deriving DecidableEq, Repr

/-- Python exceptions raised by the modelled methods. -/
inductive PyError where
  | valueError (msg : String)
  | attributeError (msg : String)
  | nameError (msg : String)
deriving DecidableEq, Repr

/-- A method invocation either returns a limiter status or raises. -/
inductive PyResult where
  | ok (status : ℕ)
  | raised (e : PyError)
deriving DecidableEq, Repr

/-- A store operation performed through self._get / self._set. -/
inductive StoreOp where
  | get (key : String)
  | set (key : String) (value : Record) (expiration : ℕ)
deriving DecidableEq, Repr

/-- The state-update portion of _A1_incrementRate (source lines 252-266):
given the unpacked (rate, last, excesses, status) and now, compute the new
rate, excesses and status.  The status is only assigned inside the
rate-exceeded branch; when the new rate is below the maximum the prior
status is kept unchanged. -/
def A1_step (rate last : ℚ) (excesses : ℤ) (status : ℕ) (now : ℚ) : ℚ × ℤ × ℕ :=
  let rate := (1 + rate) / ((now - last) + 1)
  if rate ≥ A1_MAXIMUM_RATE then
    let excesses := if status = STATUS_NO_BLOCK then excesses + 1 else excesses
    let status :=
      if A1_MAXIMUM_EXCESSES ≠ -1 ∧ excesses > A1_MAXIMUM_EXCESSES then
        STATUS_EXTENDED_BLOCK
      else
        STATUS_SHORT_BLOCK
    (rate, excesses, status)
  else
    (rate, excesses, status)

/-- The state-update portion of _A2_incrementRate (source lines 324-347):
replenish the allowance, cap it at _A2_REQUESTS, then either record an
excess (allowance below 1, left unspent) or admit the request
(status reset to no-block, allowance decremented by 1). -/
def A2_step (allowance last : ℚ) (excesses : ℤ) (status : ℕ) (now : ℚ) : ℚ × ℤ × ℕ :=
  let allowance := allowance + (now - last) * A2_ALLOWANCE
  let allowance := if allowance > A2_REQUESTS then A2_REQUESTS else allowance
  if allowance < 1 then
    let excesses := if status = STATUS_NO_BLOCK then excesses + 1 else excesses
    let status :=
      if A2_MAXIMUM_EXCESSES ≠ -1 ∧ excesses > A2_MAXIMUM_EXCESSES then
        STATUS_EXTENDED_BLOCK
      else
        STATUS_SHORT_BLOCK
    (allowance, excesses, status)
  else
    (allowance - 1, excesses, STATUS_NO_BLOCK)

/-- _A1_incrementRate (source lines 224-280).  Initial values
(0, 0, 0, no-block); one _get; immediate return on a stored extended
block; otherwise the new state and expiration are computed and the method
then evaluates self.clientIdentifier as the key for _set (source line 275),
which raises AttributeError because the Limiter object has no such
attribute, so the write never happens. -/
def A1_incrementRate (db : String → Option Record) (clientIdentifier : String)
    (now : ℚ) : PyResult × List StoreOp :=
  if clientIdentifier = "" then
    (PyResult.raised (PyError.valueError "Missing or invalid key"), [])
  else
    let ops := [StoreOp.get clientIdentifier]
    match db clientIdentifier with
    | some r =>
        if r.status = STATUS_EXTENDED_BLOCK then
          (PyResult.ok r.status, ops)
        else
          let s := A1_step r.field0 r.last r.excesses r.status now
          let expiration :=
            if s.2.2 = STATUS_EXTENDED_BLOCK then A1_EXTENDED_BLOCK_EXPIRATION
            else A1_EXPIRATION
          (PyResult.raised (PyError.attributeError "clientIdentifier"), ops)
    | none =>
        let s := A1_step 0 0 0 STATUS_NO_BLOCK now
        let expiration :=
          if s.2.2 = STATUS_EXTENDED_BLOCK then A1_EXTENDED_BLOCK_EXPIRATION
          else A1_EXPIRATION
        (PyResult.raised (PyError.attributeError "clientIdentifier"), ops)

/-- _A2_incrementRate (source lines 296-361).  Initial values
(_A2_ALLOWANCE, 0, 0, no-block); one _get; immediate return on a stored
extended block; otherwise the new state and expiration are computed and
the method then evaluates the tuple (rate, now, excesses, status) as the
value for _set (source line 356), which raises NameError because the name
rate is never bound in this method, so the write never happens. -/
def A2_incrementRate (db : String → Option Record) (clientIdentifier : String)
    (now : ℚ) : PyResult × List StoreOp :=
  if clientIdentifier = "" then
    (PyResult.raised (PyError.valueError "Missing or invalid key"), [])
  else
    let ops := [StoreOp.get clientIdentifier]
    match db clientIdentifier with
    | some r =>
        if r.status = STATUS_EXTENDED_BLOCK then
          (PyResult.ok r.status, ops)
        else
          let s := A2_step r.field0 r.last r.excesses r.status now
          let expiration :=
            if s.2.2 = STATUS_EXTENDED_BLOCK then A2_EXTENDED_BLOCK_EXPIRATION
            else A2_EXPIRATION
          (PyResult.raised (PyError.nameError "rate"), ops)
    | none =>
        let s := A2_step A2_ALLOWANCE 0 0 STATUS_NO_BLOCK now
        let expiration :=
          if s.2.2 = STATUS_EXTENDED_BLOCK then A2_EXTENDED_BLOCK_EXPIRATION
          else A2_EXPIRATION
        (PyResult.raised (PyError.nameError "rate"), ops)

/-- incrementRate (source lines 190-208).  The client identifier is a
Python value that may be None or a string; `not clientIdentifier` is true
exactly for None and the empty string.  The module global _ALGORITHM_ID is
passed explicitly as algorithmId so claims can quantify over the selected
algorithm; the source fixes it to A3 (definition ALGORITHM_ID above). -/
def incrementRate (algorithmId : ℕ) (db : String → Option Record)
    (clientIdentifier : Option String) (now : ℚ) : PyResult × List StoreOp :=
  match clientIdentifier with
  | none =>
      (PyResult.raised (PyError.valueError "Missing or invalid client identifier"), [])
  | some cid =>
      if cid = "" then
        (PyResult.raised (PyError.valueError "Missing or invalid client identifier"), [])
      else if algorithmId = A1_ALGORITHM_ID then
        A1_incrementRate db cid now
      else if algorithmId = ALGORITHM_ID_A2 then
        A2_incrementRate db cid now
      else if algorithmId = A3_ALGORITHM_ID then
        (PyResult.ok STATUS_NO_BLOCK, [])
      else
        (PyResult.raised (PyError.valueError "No algorithm was selected"), [])

/-- Claim C1: the spec asks that whenever the newly computed rate is below
the maximum, algorithm 1 set the status to no-block (Allowed) and return
it.  The code does not: with prior record (rate 0, last 0, excesses 1,
status short-block) and now = 100, the new rate 1/101 is below the maximum
rate, yet the computed status stays short-block, and the method raises
AttributeError at the persist step instead of returning Allowed. -/
theorem A1_no_reset_below_threshold :
    (1 + 0 : ℚ) / ((100 - 0) + 1) < A1_MAXIMUM_RATE ∧
    A1_step 0 0 1 STATUS_SHORT_BLOCK 100 = (1 / 101, 1, STATUS_SHORT_BLOCK) ∧
    A1_incrementRate (fun _ => some ⟨0, 0, 1, STATUS_SHORT_BLOCK⟩) "c1" 100 =
      (PyResult.raised (PyError.attributeError "clientIdentifier"), [StoreOp.get "c1"]) := by
  refine ⟨by norm_num [A1_MAXIMUM_RATE], ?_, ?_⟩
  · norm_num [A1_step, A1_MAXIMUM_RATE, STATUS_SHORT_BLOCK, STATUS_NO_BLOCK]
  · norm_num [A1_incrementRate, A1_step, A1_MAXIMUM_RATE, STATUS_SHORT_BLOCK,
      STATUS_NO_BLOCK, STATUS_EXTENDED_BLOCK]
    decide

/-- Claim C2: the spec says the initial allowance of algorithm 2 is the
capacity (10.0) and that a never-seen client gets 10 Allowed requests at
t = 0.  The code initializes the allowance to _A2_ALLOWANCE =
requests / period = 2, so at now = 0 the first two requests are admitted
(allowance 2 then 1) and the third is already short-blocked. -/
theorem A2_initial_allowance_not_capacity :
    A2_ALLOWANCE = 2 ∧ A2_REQUESTS = 10 ∧ A2_ALLOWANCE ≠ A2_REQUESTS ∧
    A2_step A2_ALLOWANCE 0 0 STATUS_NO_BLOCK 0 = (1, 0, STATUS_NO_BLOCK) ∧
    A2_step 1 0 0 STATUS_NO_BLOCK 0 = (0, 0, STATUS_NO_BLOCK) ∧
    A2_step 0 0 0 STATUS_NO_BLOCK 0 = (0, 1, STATUS_SHORT_BLOCK) := by
  refine ⟨?_, ?_, ?_, ?_, ?_, ?_⟩ <;>
    norm_num [A2_step, A2_ALLOWANCE, A2_REQUESTS, A2_PERIOD, A2_MAXIMUM_EXCESSES,
      STATUS_NO_BLOCK, STATUS_SHORT_BLOCK, STATUS_EXTENDED_BLOCK]

/-- Claim C3: a stored extended-block status is terminal: both algorithms
return it immediately, performing only the single read and no write, for
every current time. -/
theorem extendedBlock_is_terminal (db : String → Option Record) (cid : String)
    (now : ℚ) (r : Record) (hcid : cid ≠ "") (hdb : db cid = some r)
    (hst : r.status = STATUS_EXTENDED_BLOCK) :
    A1_incrementRate db cid now = (PyResult.ok STATUS_EXTENDED_BLOCK, [StoreOp.get cid]) ∧
    A2_incrementRate db cid now = (PyResult.ok STATUS_EXTENDED_BLOCK, [StoreOp.get cid]) := by
  constructor <;> simp [A1_incrementRate, A2_incrementRate, hcid, hdb, hst]

/-- Witness for C3 at a concrete store, client and time. -/
theorem extendedBlock_is_terminal_witness :
    A1_incrementRate (fun _ => some ⟨3, 7, 31, STATUS_EXTENDED_BLOCK⟩) "x" 9 =
      (PyResult.ok STATUS_EXTENDED_BLOCK, [StoreOp.get "x"]) ∧
    A2_incrementRate (fun _ => some ⟨3, 7, 31, STATUS_EXTENDED_BLOCK⟩) "x" 9 =
      (PyResult.ok STATUS_EXTENDED_BLOCK, [StoreOp.get "x"]) :=
  extendedBlock_is_terminal (fun _ => some ⟨3, 7, 31, STATUS_EXTENDED_BLOCK⟩) "x" 9
    ⟨3, 7, 31, STATUS_EXTENDED_BLOCK⟩ (by decide) rfl rfl

/-- Claim C4: the spec says algorithm 2 persists the 4-tuple
(allowance, now, excessCount, status).  The code instead writes the name
rate, which is unbound in _A2_incrementRate: on a never-extended-blocked
prior record the call raises NameError at the persist step and no write is
performed. -/
theorem A2_persist_writes_unbound_rate :
    A2_incrementRate (fun _ => some ⟨9, 0, 0, STATUS_NO_BLOCK⟩) "c4" 0 =
      (PyResult.raised (PyError.nameError "rate"), [StoreOp.get "c4"]) ∧
    A2_incrementRate (fun _ => none) "c4" 0 =
      (PyResult.raised (PyError.nameError "rate"), [StoreOp.get "c4"]) := by
  constructor <;>
    norm_num [A2_incrementRate, A2_step, A2_ALLOWANCE, A2_REQUESTS, A2_PERIOD,
      A2_MAXIMUM_EXCESSES, STATUS_NO_BLOCK, STATUS_SHORT_BLOCK, STATUS_EXTENDED_BLOCK] <;>
    decide

/-- Claim C5: the spec says each non-extended-blocked check performs
exactly one read and one write, both keyed by the identifier passed in.
The code performs the read with that key but never reaches the write:
algorithm 1 raises AttributeError evaluating self.clientIdentifier as the
write key, algorithm 2 raises NameError evaluating the unbound name rate
in the write value. -/
theorem one_read_no_write_on_slip :
    A1_incrementRate (fun _ => some ⟨1, 0, 0, STATUS_NO_BLOCK⟩) "c5" 1 =
      (PyResult.raised (PyError.attributeError "clientIdentifier"), [StoreOp.get "c5"]) ∧
    A2_incrementRate (fun _ => some ⟨1, 0, 0, STATUS_NO_BLOCK⟩) "c5" 1 =
      (PyResult.raised (PyError.nameError "rate"), [StoreOp.get "c5"]) := by
  constructor <;>
    norm_num [A1_incrementRate, A1_step, A1_MAXIMUM_RATE, A2_incrementRate, A2_step,
      A2_ALLOWANCE, A2_REQUESTS, A2_PERIOD, STATUS_NO_BLOCK, STATUS_SHORT_BLOCK,
      STATUS_EXTENDED_BLOCK] <;> decide

/-- Claim C6: an empty or missing client identifier is rejected with
ValueError before any store access, whatever algorithm is selected. -/
theorem invalid_clientIdentifier_rejected (algorithmId : ℕ)
    (db : String → Option Record) (cid : Option String) (now : ℚ)
    (h : cid = none ∨ cid = some "") :
    incrementRate algorithmId db cid now =
      (PyResult.raised (PyError.valueError "Missing or invalid client identifier"), []) := by
  rcases h with h | h <;> subst h <;> simp [incrementRate]

/-- Witness for C6 at a concrete algorithm, store, identifier and time. -/
theorem invalid_clientIdentifier_rejected_witness :
    incrementRate A1_ALGORITHM_ID (fun _ => none) (some "") 0 =
      (PyResult.raised (PyError.valueError "Missing or invalid client identifier"), []) :=
  invalid_clientIdentifier_rejected A1_ALGORITHM_ID (fun _ => none) (some "") 0 (Or.inr rfl)

/-- Claim C7: on a never-seen client the decision logic of both algorithms
does compute the no-block (Allowed) status, but the methods raise
(AttributeError for algorithm 1, NameError for algorithm 2) at the persist
step instead of returning it. -/
theorem neverSeen_allowed_but_raises :
    (A1_step 0 0 0 STATUS_NO_BLOCK 0).2.2 = STATUS_NO_BLOCK ∧
    (A2_step A2_ALLOWANCE 0 0 STATUS_NO_BLOCK 0).2.2 = STATUS_NO_BLOCK ∧
    A1_incrementRate (fun _ => none) "c7" 0 =
      (PyResult.raised (PyError.attributeError "clientIdentifier"), [StoreOp.get "c7"]) ∧
    A2_incrementRate (fun _ => none) "c7" 0 =
      (PyResult.raised (PyError.nameError "rate"), [StoreOp.get "c7"]) := by
  refine ⟨?_, ?_, ?_, ?_⟩ <;>
    norm_num [A1_incrementRate, A1_step, A1_MAXIMUM_RATE, A2_incrementRate, A2_step,
      A2_ALLOWANCE, A2_REQUESTS, A2_PERIOD, STATUS_NO_BLOCK, STATUS_SHORT_BLOCK,
      STATUS_EXTENDED_BLOCK] <;> decide

/-- Claim C8: in one check of either algorithm the excess count never
decreases, and it is incremented by exactly one precisely when the
threshold is crossed (new rate at least the maximum, respectively capped
replenished allowance below 1) while the prior status is no-block
(Allowed); in every other case, in particular on a repeated check whose
prior status is already short-blocked, it is unchanged.  The time
hypotheses confine the statement to the reachable case where the Python
division cannot hit a zero denominator. -/
theorem excesses_monotone_step (rate allowance last : ℚ) (excesses : ℤ)
    (status : ℕ) (now : ℚ) (h0 : 0 ≤ last) (h1 : last ≤ now) :
    ((A1_step rate last excesses status now).2.1 =
      if (1 + rate) / ((now - last) + 1) ≥ A1_MAXIMUM_RATE ∧ status = STATUS_NO_BLOCK then
        excesses + 1
      else excesses) ∧
    excesses ≤ (A1_step rate last excesses status now).2.1 ∧
    ((A2_step allowance last excesses status now).2.1 =
      if (if allowance + (now - last) * A2_ALLOWANCE > A2_REQUESTS then A2_REQUESTS
          else allowance + (now - last) * A2_ALLOWANCE) < 1 ∧ status = STATUS_NO_BLOCK then
        excesses + 1
      else excesses) ∧
    excesses ≤ (A2_step allowance last excesses status now).2.1 := by
  refine ⟨?_, ?_, ?_, ?_⟩ <;> simp only [A1_step, A2_step] <;> split_ifs <;>
    simp_all

/-- Witness for C8 at concrete prior states and times. -/
theorem excesses_monotone_step_witness :
    ((A1_step 2 0 5 STATUS_NO_BLOCK 0).2.1 =
      if (1 + 2 : ℚ) / ((0 - 0) + 1) ≥ A1_MAXIMUM_RATE ∧ STATUS_NO_BLOCK = STATUS_NO_BLOCK then
        5 + 1
      else 5) ∧
    (5 : ℤ) ≤ (A1_step 2 0 5 STATUS_NO_BLOCK 0).2.1 ∧
    ((A2_step 2 0 5 STATUS_NO_BLOCK 0).2.1 =
      if (if (2 : ℚ) + (0 - 0) * A2_ALLOWANCE > A2_REQUESTS then A2_REQUESTS
          else 2 + (0 - 0) * A2_ALLOWANCE) < 1 ∧ STATUS_NO_BLOCK = STATUS_NO_BLOCK then
        5 + 1
      else 5) ∧
    (5 : ℤ) ≤ (A2_step 2 0 5 STATUS_NO_BLOCK 0).2.1 :=
  excesses_monotone_step 2 2 0 5 STATUS_NO_BLOCK 0 le_rfl le_rfl

/-- Claim C9: with the pass-through algorithm 3 selected (the source's
compiled-in choice), every check with a non-empty identifier returns the
no-block (Allowed) status and performs no store operation, whatever the
store contents and time; consequently every sequence of calls yields only
Allowed results and an empty operation log. -/
theorem passThrough_allowed (cid : String) (h : cid ≠ "") :
    (∀ (db : String → Option Record) (now : ℚ),
      incrementRate A3_ALGORITHM_ID db (some cid) now = (PyResult.ok STATUS_NO_BLOCK, [])) ∧
    (∀ calls : List ((String → Option Record) × ℚ),
      calls.map (fun c => incrementRate A3_ALGORITHM_ID c.1 (some cid) c.2) =
        calls.map (fun _ => (PyResult.ok STATUS_NO_BLOCK, []))) := by
  have hone : ∀ (db : String → Option Record) (now : ℚ),
      incrementRate A3_ALGORITHM_ID db (some cid) now = (PyResult.ok STATUS_NO_BLOCK, []) := by
    intro db now
    simp [incrementRate, h, A1_ALGORITHM_ID, ALGORITHM_ID_A2, A3_ALGORITHM_ID]
  refine ⟨hone, ?_⟩
  intro calls
  induction calls with
  | nil => rfl
  | cons c cs ih => simp [hone, ih]

/-- Witness for C9 at a concrete identifier, store and time. -/
theorem passThrough_allowed_witness :
    incrementRate A3_ALGORITHM_ID (fun _ => none) (some "z") 0 =
      (PyResult.ok STATUS_NO_BLOCK, []) :=
  (passThrough_allowed "z" (by decide)).1 (fun _ => none) 0

/-- Claim C10: for a prior allowance within [0, capacity] and a current
time not before the last one, the allowance computed by an algorithm 2
step (replenish, cap at capacity, then spend 1 only when at least 1 is
available) stays within [0, capacity]. -/
theorem A2_allowance_in_range (allowance last : ℚ) (excesses : ℤ) (status : ℕ)
    (now : ℚ) (h0 : 0 ≤ allowance) (h1 : allowance ≤ A2_REQUESTS) (h2 : last ≤ now) :
    0 ≤ (A2_step allowance last excesses status now).1 ∧
    (A2_step allowance last excesses status now).1 ≤ A2_REQUESTS := by
  have hall : (0 : ℚ) ≤ (now - last) * A2_ALLOWANCE := by
    have h3 : (0 : ℚ) ≤ now - last := by linarith
    have h4 : (0 : ℚ) ≤ A2_ALLOWANCE := by
      norm_num [A2_ALLOWANCE, A2_REQUESTS, A2_PERIOD]
    exact mul_nonneg h3 h4
  have hreq : A2_REQUESTS = 10 := by norm_num [A2_REQUESTS]
  refine ⟨?_, ?_⟩ <;> simp only [A2_step] <;> split_ifs <;> dsimp only <;> linarith

/-- Witness for C10 at a concrete prior state and time. -/
theorem A2_allowance_in_range_witness :
    0 ≤ (A2_step 5 0 0 STATUS_NO_BLOCK 1).1 ∧
    (A2_step 5 0 0 STATUS_NO_BLOCK 1).1 ≤ A2_REQUESTS :=
  A2_allowance_in_range 5 0 0 STATUS_NO_BLOCK 1 (by norm_num)
    (by norm_num [A2_REQUESTS]) (by norm_num)

end Limiter
